import Mathlib

/-!
Verification of the jp2_remediator core: the JP2 colour-profile remediation
engine.  Buffers are modelled as lists of byte values (naturals below 256 in
well-formed inputs); big-endian 32-bit fields are parsed and written with
explicit arithmetic.  The file embeds, in order: the byte-level primitives,
the box scanner, the colour-box decoder, the TRC tag processor, the
remediation orchestrator (from in_memory_box_reader.py), and the S3
processing routine (from processor.py).  The BoxReader internals and the
Jp2Result record are not present in the available sources; they are
modelled from the specification where noted.
-/

namespace Jp2

/-- Byte read at an index, 0 when out of range (used only at positions the
theorems constrain to be in range). -/
def byteAt (buf : List Nat) (i : Nat) : Nat := (buf[i]?).getD 0

/-- Big-endian 32-bit unsigned read at an index. -/
def readBE32 (buf : List Nat) (i : Nat) : Nat :=
  byteAt buf i * 2 ^ 24 + byteAt buf (i + 1) * 2 ^ 16 +
    byteAt buf (i + 2) * 2 ^ 8 + byteAt buf (i + 3)

/-- Big-endian 32-bit encoding of a value as four bytes. -/
def be32Bytes (n : Nat) : List Nat :=
  [n / 2 ^ 24 % 256, n / 2 ^ 16 % 256, n / 2 ^ 8 % 256, n % 256]

/-- Write a run of bytes into the buffer starting at an index (out-of-range
writes are dropped, matching that the code only writes inside the entry it
just read in full). -/
def writeBytes (buf : List Nat) (i : Nat) : List Nat → List Nat
  | [] => buf
  | b :: bs => writeBytes (buf.set i b) (i + 1) bs

/-- Modelled from the spec: find_box_position of the missing box_reader.py.
A raw linear byte-exact search for the first occurrence of the 4-byte
signature anywhere in the buffer, not a box-tree walk; none is the
not-found sentinel. -/
def find_box_position (sig : List Nat) : List Nat → Option Nat
  | [] => if sig = ([] : List Nat) then some 0 else none
  | b :: rest =>
    if sig = (b :: rest).take sig.length then some 0
    else (find_box_position sig rest).map (fun n => n + 1)

/-- Signature bytes 6A 70 32 68 for the jp2h box. -/
def jp2hSig : List Nat := [0x6a, 0x70, 0x32, 0x68]

/-- Signature bytes 63 6F 6C 72 for the colr box. -/
def colrSig : List Nat := [0x63, 0x6f, 0x6c, 0x72]

/-- Signature bytes 72 54 52 43 for the rTRC tag. -/
def rTRCSig : List Nat := [0x72, 0x54, 0x52, 0x43]

/-- Signature bytes 67 54 52 43 for the gTRC tag. -/
def gTRCSig : List Nat := [0x67, 0x54, 0x52, 0x43]

/-- Signature bytes 62 54 52 43 for the bTRC tag. -/
def bTRCSig : List Nat := [0x62, 0x54, 0x52, 0x43]

/-- Diagnostic text for a missing colr box. -/
def colrNotFoundMsg : String := "colr not found in the file."

/-- Diagnostic text for a missing jp2h box. -/
def jp2hNotFoundMsg : String := "jp2h not found in the file."

/-- Diagnostic text recorded when meth is 1, naming the computed offset. -/
def methOneMsg (pos : Nat) : String :=
  "meth is 1, setting header_offset_position to: " ++ toString pos

/-- Diagnostic text recorded when meth is 2, naming the computed offset. -/
def methTwoMsg (pos : Option Nat) : String :=
  "meth is 2, header offset: " ++ toString pos

/-- Diagnostic text naming a literal unrecognized meth value. -/
def methBadMsg (m : Nat) : String :=
  "meth value " ++ toString m ++ " is not recognized (must be 1 or 2)."

/-- Diagnostic text for a TRC channel signature that was not found. -/
def notFoundMsg (name : String) : String := name ++ " not found in the file."

/-- Diagnostic text for an undefined header offset, naming the channel whose
curve position cannot be resolved. -/
def noHopMsg (name : String) : String :=
  "Cannot calculate curv_" ++ name ++
    "_position due to an unrecognized meth value."

/-- Diagnostic text for a truncated 12-byte tag entry, naming the channel. -/
def truncMsg (name : String) : String :=
  "Could not extract the full 12-byte " ++ name ++ " tag entry."

/-- Warning text recorded when gamma_n differs from 1. -/
def gammaWarn (name : String) (g : Nat) : String :=
  "curv_" ++ name ++ "_gamma_n is " ++ toString g ++ ", not 1."

/-- Warning text naming the old and new size values of a patched entry. -/
def sizeWarn (name : String) (oldSize newSize : Nat) : String :=
  name ++ " Tag Size (" ++ toString oldSize ++ ") does not match curv_" ++
    name ++ "_field_length (" ++ toString newSize ++ "). Modifying the size..."

/-- Modelled from the spec: process_colr_box of the missing box_reader.py.
Sentinel position yields an undefined offset with a diagnostic; otherwise
the 1-byte meth field at colr_position + 4 selects the rule.  The spec
leaves the meth value 2 formula an open question, so that rule is a
parameter; meth values other than 1 and 2 yield an undefined offset and a
diagnostic naming the literal value. -/
def process_colr_box (meth2Rule : Nat → Option Nat) (buf : List Nat)
    (colrPos : Option Nat) : Option Nat × List String :=
  match colrPos with
  | none => (none, [colrNotFoundMsg])
  | some p =>
    match buf[p + 4]? with
    | none => (none, ["meth byte out of range."])
    | some m =>
      if m = 1 then (some (p + 4 + 7), [methOneMsg (p + 4 + 7)])
      else if m = 2 then (meth2Rule p, [methTwoMsg (meth2Rule p)])
      else (none, [methBadMsg m])

/-- Modelled from the spec: check_boxes of the missing box_reader.py.
Searches for jp2h; if absent, records a diagnostic and leaves the header
offset undefined; if present, locates colr and delegates to
process_colr_box with whatever position (or sentinel) the scanner found. -/
def check_boxes (meth2Rule : Nat → Option Nat) (buf : List Nat) :
    Option Nat × List String :=
  match find_box_position jp2hSig buf with
  | none => (none, [jp2hNotFoundMsg])
  | some _ => process_colr_box meth2Rule buf (find_box_position colrSig buf)

/-- Output of one TRC channel pass: the working buffer, the tracked
curv_trc_gamma_n state, and the debug and warning records. -/
structure TrcOut where
  buf : List Nat
  gammaState : Option Nat
  diags : List String
  warns : List String

/-- Big-endian tag offset parsed from bytes 4 to 7 of the entry at p. -/
def tagOffsetAt (buf : List Nat) (p : Nat) : Nat := readBE32 buf (p + 4)

/-- Big-endian tag size parsed from bytes 8 to 11 of the entry at p. -/
def tagSizeAt (buf : List Nat) (p : Nat) : Nat := readBE32 buf (p + 8)

/-- Gamma_n read from the curv header at tag_offset + header_offset: the
4-byte big-endian count after the 4-byte signature and 4-byte reserved
field. -/
def gammaAt (buf : List Nat) (p h : Nat) : Nat :=
  readBE32 buf (tagOffsetAt buf p + h + 8)

/-- Modelled from the spec: the core of process_trc_tag of the missing
box_reader.py, after the signature was found at p and the header offset h
is defined.  A truncated 12-byte entry is a diagnosed no-op; a gamma_n
other than 1 records the sticky skip state and leaves the buffer alone; a
declared size differing from gamma_n * 2 + 12 is patched in place over the
4-byte size field of the entry with a warning; otherwise the buffer is
unchanged. -/
def trcCore (name : String) (buf : List Nat) (p h : Nat) (st : Option Nat) :
    TrcOut :=
  if buf.length < p + 12 then ⟨buf, st, [truncMsg name], []⟩
  else if gammaAt buf p h ≠ 1 then
    ⟨buf, some (gammaAt buf p h), [], [gammaWarn name (gammaAt buf p h)]⟩
  else if tagSizeAt buf p ≠ gammaAt buf p h * 2 + 12 then
    ⟨writeBytes buf (p + 8) (be32Bytes (gammaAt buf p h * 2 + 12)), st, [],
      [sizeWarn name (tagSizeAt buf p) (gammaAt buf p h * 2 + 12)]⟩
  else ⟨buf, st, [], []⟩

/-- Modelled from the spec: process_trc_tag of the missing box_reader.py.
Step order per the spec: locate the signature, check the header offset is
defined, then run the core steps. -/
def process_trc_tag (sig : List Nat) (name : String) (buf : List Nat)
    (hop : Option Nat) (st : Option Nat) : TrcOut :=
  match find_box_position sig buf with
  | none => ⟨buf, st, [notFoundMsg name], []⟩
  | some p =>
    match hop with
    | none => ⟨buf, st, [noHopMsg name], []⟩
    | some h => trcCore name buf p h st

/-- Sequential composition of TRC channel passes over one working buffer:
each channel's output buffer and gamma state feed the next channel. -/
def runTrcChannels (channels : List (List Nat × String)) (hop : Option Nat)
    (buf : List Nat) (st : Option Nat) : List Nat × Option Nat :=
  match channels with
  | [] => (buf, st)
  | (sig, name) :: rest =>
    let o := process_trc_tag sig name buf hop st
    runTrcChannels rest hop o.buf o.gammaState

/-- The three TRC channels in the order the code processes them. -/
def trcChannels : List (List Nat × String) :=
  [(rTRCSig, "rTRC"), (gTRCSig, "gTRC"), (bTRCSig, "bTRC")]

/-- Modelled from the spec: process_all_trc_tags of the missing
box_reader.py.  Copies the source bytes into a fresh working buffer and
runs the three channel passes over it, threading the gamma state. -/
def process_all_trc_tags (buf : List Nat) (hop : Option Nat)
    (st : Option Nat) : List Nat × Option Nat :=
  runTrcChannels trcChannels hop buf st

/-- Gamma_n value a single channel pass observes on a given buffer, when it
reaches the curve read: the signature is found, the header offset is
defined, and the full 12-byte entry is available; none otherwise. -/
def trcGammaSeen (sig : List Nat) (buf : List Nat) (hop : Option Nat) :
    Option Nat :=
  match find_box_position sig buf, hop with
  | some p, some h =>
    if buf.length < p + 12 then none else some (gammaAt buf p h)
  | _, _ => none

/-- Skip decision derived from the tracked curv_trc_gamma_n value: skip
exactly when a gamma value was recorded and it differs from 1 (the code
only ever records values differing from 1). -/
def skipOfGamma : Option Nat → Bool
  | none => false
  | some n => decide (n ≠ 1)

/-- Modelled from the spec: the Jp2Result record of the missing
jp2_result.py — path identifier, validity flag, empty-input flag, and the
process-wide skip flag. -/
structure Jp2Result where
  path : String
  isValid : Option Bool
  isEmpty : Bool
  skipRemediation : Bool
deriving DecidableEq

/-- Fresh result for a path, before any pass ran. -/
def Jp2Result.make (path : String) : Jp2Result :=
  ⟨path, none, false, false⟩

/-- Modelled from the spec: empty_result of the missing jp2_result.py,
marking the result as produced from an empty input. -/
def Jp2Result.empty_result (r : Jp2Result) : Jp2Result :=
  { r with isEmpty := true }

/-- Modelled from the spec: set_validity of the missing jp2_result.py. -/
def Jp2Result.set_validity (r : Jp2Result) (v : Bool) : Jp2Result :=
  { r with isValid := some v }

/-- Modelled from the spec: set_skip_remediation of the missing
jp2_result.py, deriving the skip flag from the tracked gamma value. -/
def Jp2Result.set_skip_remediation (r : Jp2Result) (g : Option Nat) :
    Jp2Result :=
  { r with skipRemediation := skipOfGamma g }

/-- Object state of an InMemoryBoxReader: the immutable source bytes held
in file_contents and the tracked curv_trc_gamma_n attribute. -/
structure ReaderState where
  file_contents : List Nat
  curv_trc_gamma_n : Option Nat

/-- The remediate_jp2 method of in_memory_box_reader.py, threading the
object state explicitly; the external validator is the isValid parameter
and the open meth value 2 rule is the meth2Rule parameter.  An empty
buffer returns the empty result at once; otherwise validity is recorded,
the boxes are scanned for the header offset, the three TRC passes run
over a fresh working copy, and the skip flag is finalized from the
accumulated gamma state.  No step assigns file_contents. -/
def remediate_jp2_obj (isValid : List Nat → Bool)
    (meth2Rule : Nat → Option Nat) (r : ReaderState) :
    (Jp2Result × List Nat) × ReaderState :=
  if r.file_contents = [] then
    (((Jp2Result.make "::memory::").empty_result, r.file_contents), r)
  else
    let v := isValid r.file_contents
    let hop := (check_boxes meth2Rule r.file_contents).1
    let out := process_all_trc_tags r.file_contents hop r.curv_trc_gamma_n
    ((((Jp2Result.make "::memory::").set_validity v).set_skip_remediation
        out.2, out.1),
      { file_contents := r.file_contents, curv_trc_gamma_n := out.2 })

/-- Remediation entry point on a fresh reader, whose constructor sets
curv_trc_gamma_n to none. -/
def remediate_jp2 (isValid : List Nat → Bool)
    (meth2Rule : Nat → Option Nat) (buf : List Nat) : Jp2Result × List Nat :=
  (remediate_jp2_obj isValid meth2Rule ⟨buf, none⟩).1

/-- Externally visible effects of Processor.process_s3_file, in the order
processor.py performs them. -/
inductive S3Event
  | info (msg : String)
  | errorLog (msg : String)
  | download (bucket key path : String)
  | readJp2 (path : String)
  | upload (path bucket key : String)
  | removeFile (path : String)
deriving DecidableEq

/-- Last path component, as os.path.basename on a plain key. -/
def basename (s : String) : String := (s.splitOn "/").getLastD s

/-- Does the event touch the modified file on S3 or on disk (upload or
delete)? -/
def touchesModified : S3Event → Bool
  | S3Event.upload _ _ _ => true
  | S3Event.removeFile _ => true
  | _ => false

/-- Skip log message of processor.py, for a given download path. -/
def skipLogMsg (downloadPath : String) : String :=
  "Skipping upload for " ++ downloadPath ++
    " because curv_trc_gamma_n != 1 for at least one TRC channel."

/-- The Processor.process_s3_file method of processor.py as the trace of
effects it performs.  The reader produced by the factory is summarized by
its skip_remediation attribute: none when the attribute is absent (hasattr
false), some b when present with value b.  The timestamp, the existence of
the modified file, and the success of the delete are parameters standing
for the environment. -/
def process_s3_file (skipAttr : Option Bool) (modExists removeOk : Bool)
    (timestamp inputBucket inputKey outputBucket outputKey : String) :
    List S3Event :=
  let downloadPath := "/tmp/" ++ basename inputKey
  let start :=
    [S3Event.info ("Downloading file: " ++ inputKey ++ " from bucket: " ++
        inputBucket),
      S3Event.download inputBucket inputKey downloadPath,
      S3Event.readJp2 downloadPath]
  match skipAttr with
  | some true => start ++ [S3Event.info (skipLogMsg downloadPath)]
  | _ =>
    let modifiedPath :=
      downloadPath.replace ".jp2" ("_modified_" ++ timestamp ++ ".jp2")
    if modExists then
      start ++
        [S3Event.info ("Uploading modified file to bucket: " ++ outputBucket
            ++ ", key: " ++ outputKey),
          S3Event.upload modifiedPath outputBucket outputKey,
          S3Event.removeFile modifiedPath] ++
        (if removeOk then
          [S3Event.info ("Deleted temporary file: " ++ modifiedPath)]
        else [S3Event.errorLog ("Error deleting file " ++ modifiedPath)])
    else start ++ [S3Event.info ("File " ++ modifiedPath ++ " not created.")]

/-- Concrete buffer holding jp2h, colr with meth 1, and an rTRC entry whose
curv header carries gamma_n 2: jp2h at 0, colr at 4, meth byte at 8, rTRC
entry at 20 with tag offset 30 and declared size 20, curv header at 45
with gamma_n 2. -/
def wbufSkip : List Nat :=
  jp2hSig ++ colrSig ++ [1] ++ List.replicate 11 0 ++ rTRCSig ++
    [0, 0, 0, 30, 0, 0, 0, 20] ++ List.replicate 13 0 ++
    [0x63, 0x75, 0x72, 0x76] ++ [0, 0, 0, 0] ++ [0, 0, 0, 2]

/-- Concrete buffer holding one rTRC entry at 0 with tag offset 12 and
declared size 20, followed by a curv header at 12 with gamma_n 1: the
known defect shape (correct size would be 14). -/
def wbufFix : List Nat :=
  [0x72, 0x54, 0x52, 0x43, 0, 0, 0, 12, 0, 0, 0, 20,
    0x63, 0x75, 0x72, 0x76, 0, 0, 0, 0, 0, 0, 0, 1]

/-- Concrete buffer holding one rTRC entry at 0 with tag offset 12 and
declared size 14, followed by a curv header at 12 with gamma_n 1: an
already-correct entry. -/
def wbufOk : List Nat :=
  [0x72, 0x54, 0x52, 0x43, 0, 0, 0, 12, 0, 0, 0, 14,
    0x63, 0x75, 0x72, 0x76, 0, 0, 0, 0, 0, 0, 0, 1]

/-- Concrete buffer holding an rTRC signature with only 3 bytes after it:
a truncated tag entry. -/
def wbufTrunc : List Nat := rTRCSig ++ [0, 0, 0]

/-- Writing a run of bytes preserves the buffer length. -/
theorem writeBytes_length (bs : List Nat) : ∀ (buf : List Nat) (i : Nat),
    (writeBytes buf i bs).length = buf.length := by
  induction bs with
  | nil => intro buf i; rfl
  | cons b bs ih =>
    intro buf i
    rw [writeBytes, ih, List.length_set]

/-- Writing a run of bytes leaves every position outside the written range
untouched. -/
theorem writeBytes_getElem_frame (bs : List Nat) : ∀ (buf : List Nat)
    (i j : Nat), j < i ∨ i + bs.length ≤ j →
    (writeBytes buf i bs)[j]? = buf[j]? := by
  induction bs with
  | nil => intro buf i j _; rfl
  | cons b bs ih =>
    intro buf i j h
    rw [List.length_cons] at h
    rw [writeBytes, ih (buf.set i b) (i + 1) j (by omega),
      List.getElem?_set_ne (by omega)]

/-- Reading back the 4-byte big-endian field just written returns the
written value, for values below 2 to the 32. -/
theorem readBE32_writeBytes (buf : List Nat) (i n : Nat)
    (h : i + 3 < buf.length) (hn : n < 2 ^ 32) :
    readBE32 (writeBytes buf i (be32Bytes n)) i = n := by
  have e : writeBytes buf i (be32Bytes n) =
      (((buf.set i (n / 2 ^ 24 % 256)).set (i + 1) (n / 2 ^ 16 % 256)).set
        (i + 2) (n / 2 ^ 8 % 256)).set (i + 3) (n % 256) := rfl
  unfold readBE32 byteAt
  rw [e]
  simp only [List.getElem?_set, List.length_set,
    show i + 3 ≠ i from by omega, show i + 2 ≠ i from by omega,
    show i + 1 ≠ i from by omega, show i + 3 ≠ i + 1 from by omega,
    show i + 2 ≠ i + 1 from by omega, show i + 3 ≠ i + 2 from by omega,
    if_neg, if_pos rfl, show i < buf.length from by omega,
    show i + 1 < buf.length from by omega,
    show i + 2 < buf.length from by omega, h, if_true, Option.getD_some]
  simp only [if_false, Option.getD_some]
  omega

/-- A found signature and a defined header offset route process_trc_tag to
its core steps. -/
theorem process_trc_tag_found (sig : List Nat) (name : String)
    (buf : List Nat) (h : Nat) (st : Option Nat) (p : Nat)
    (hfind : find_box_position sig buf = some p) :
    process_trc_tag sig name buf (some h) st = trcCore name buf p h st := by
  unfold process_trc_tag
  rw [hfind]

/-- One channel pass never lowers the skip decision: the tracked gamma
state is either kept or overwritten with a value differing from 1. -/
theorem trc_state_mono (sig : List Nat) (name : String) (buf : List Nat)
    (hop : Option Nat) (st : Option Nat) (h : skipOfGamma st = true) :
    skipOfGamma (process_trc_tag sig name buf hop st).gammaState = true := by
  unfold process_trc_tag
  cases hf : find_box_position sig buf with
  | none => exact h
  | some p =>
    cases hop with
    | none => exact h
    | some hh =>
      unfold trcCore
      dsimp only
      by_cases h1 : buf.length < p + 12
      · rw [if_pos h1]; exact h
      · rw [if_neg h1]
        by_cases h2 : gammaAt buf p hh ≠ 1
        · rw [if_pos h2]; exact decide_eq_true h2
        · rw [if_neg h2]
          by_cases h3 : tagSizeAt buf p ≠ gammaAt buf p hh * 2 + 12
          · rw [if_pos h3]; exact h
          · rw [if_neg h3]; exact h

/-- A channel pass that reaches the curve read and sees a gamma value
records that value in the tracked state. -/
theorem trc_state_sets (sig : List Nat) (name : String) (buf : List Nat)
    (p h : Nat) (st : Option Nat) (g : Nat)
    (hfind : find_box_position sig buf = some p)
    (hlen : ¬ buf.length < p + 12)
    (hg : gammaAt buf p h = g) (hne : g ≠ 1) :
    (process_trc_tag sig name buf (some h) st).gammaState = some g := by
  rw [process_trc_tag_found sig name buf h st p hfind]
  unfold trcCore
  rw [if_neg hlen, hg, if_pos hne]

/-- Monotonicity of the skip decision along a sequence of channel passes. -/
theorem runTrcChannels_mono (channels : List (List Nat × String))
    (hop : Option Nat) : ∀ (buf : List Nat) (st : Option Nat),
    skipOfGamma st = true →
    skipOfGamma (runTrcChannels channels hop buf st).2 = true := by
  induction channels with
  | nil => intro buf st h; exact h
  | cons c rest ih =>
    intro buf st h
    cases c with
    | mk sig name => exact ih _ _ (trc_state_mono sig name buf hop st h)

/-- Sequencing channel passes composes: the passes of an appended list run
on the buffer and state produced by the first list. -/
theorem runTrcChannels_append (cs ds : List (List Nat × String))
    (hop : Option Nat) : ∀ (buf : List Nat) (st : Option Nat),
    runTrcChannels (cs ++ ds) hop buf st =
      runTrcChannels ds hop (runTrcChannels cs hop buf st).1
        (runTrcChannels cs hop buf st).2 := by
  induction cs with
  | nil => intro buf st; rfl
  | cons c rest ih =>
    intro buf st
    cases c with
    | mk sig name => exact ih _ _

/-- Skip flag of a non-empty remediation pass is the skip decision derived
from the gamma state accumulated over the three channel passes. -/
theorem remediate_skip_flag (isValid : List Nat → Bool)
    (meth2Rule : Nat → Option Nat) (buf : List Nat) (hne : ¬ buf = []) :
    (remediate_jp2 isValid meth2Rule buf).1.skipRemediation =
      skipOfGamma
        (process_all_trc_tags buf ((check_boxes meth2Rule buf).1) none).2 := by
  unfold remediate_jp2 remediate_jp2_obj
  rw [if_neg hne]
  rfl

/-- C2: whenever a TRC tag entry is found, the header offset is defined,
the referenced curv header has gamma_n equal to 1, and the declared tag
size is 20 (differing from the expected size 14), process_trc_tag
overwrites exactly the 4-byte big-endian size field of the entry with 14
and records a warning naming the old and new values; every byte outside
those 4 positions is unchanged. -/
theorem size_fix_exact (sig : List Nat) (name : String) (buf : List Nat)
    (p h : Nat) (st : Option Nat)
    (hfind : find_box_position sig buf = some p)
    (hlen : p + 12 ≤ buf.length)
    (hgamma : gammaAt buf p h = 1)
    (hsize : tagSizeAt buf p = 20) :
    (process_trc_tag sig name buf (some h) st).buf =
        writeBytes buf (p + 8) (be32Bytes 14) ∧
      (process_trc_tag sig name buf (some h) st).buf.length = buf.length ∧
      (∀ i, i < p + 8 ∨ p + 12 ≤ i →
        ((process_trc_tag sig name buf (some h) st).buf)[i]? = buf[i]?) ∧
      readBE32 (process_trc_tag sig name buf (some h) st).buf (p + 8) = 14 ∧
      sizeWarn name 20 14 ∈ (process_trc_tag sig name buf (some h) st).warns
    := by
  have hl : ¬ buf.length < p + 12 := not_lt.mpr hlen
  have hcore : process_trc_tag sig name buf (some h) st =
      ⟨writeBytes buf (p + 8) (be32Bytes 14), st, [],
        [sizeWarn name 20 14]⟩ := by
    rw [process_trc_tag_found sig name buf h st p hfind]
    unfold trcCore
    rw [if_neg hl, hgamma, hsize]
    norm_num
  rw [hcore]
  refine ⟨rfl, writeBytes_length _ _ _, ?_, ?_, List.mem_cons_self _ _⟩
  · intro i hi
    exact writeBytes_getElem_frame _ buf (p + 8) i
      (by simp only [be32Bytes, List.length_cons, List.length_nil]; omega)
  · exact readBE32_writeBytes buf (p + 8) 14 (by omega) (by norm_num)

/-- C2 witness: on the concrete defective buffer the size field is patched
to 14 and the warning is recorded. -/
theorem size_fix_exact_witness :
    (process_trc_tag rTRCSig "rTRC" wbufFix (some 0) none).buf =
        writeBytes wbufFix 8 (be32Bytes 14) ∧
      (process_trc_tag rTRCSig "rTRC" wbufFix (some 0) none).buf.length =
        wbufFix.length ∧
      (∀ i, i < 8 ∨ 12 ≤ i →
        ((process_trc_tag rTRCSig "rTRC" wbufFix (some 0) none).buf)[i]? =
          wbufFix[i]?) ∧
      readBE32 (process_trc_tag rTRCSig "rTRC" wbufFix (some 0) none).buf 8
        = 14 ∧
      sizeWarn "rTRC" 20 14 ∈
        (process_trc_tag rTRCSig "rTRC" wbufFix (some 0) none).warns :=
  size_fix_exact rTRCSig "rTRC" wbufFix 0 0 none (by decide) (by decide)
    (by decide) (by decide)

/-- C3: an empty input buffer returns at once with a result marked empty
and the same empty buffer; the outcome is independent of the external
validity check (so it is never consulted) and of the colour-box rules. -/
theorem empty_buffer_early_return :
    ∀ (isValid1 isValid2 : List Nat → Bool)
      (meth2Rule1 meth2Rule2 : Nat → Option Nat),
    remediate_jp2 isValid1 meth2Rule1 [] =
        remediate_jp2 isValid2 meth2Rule2 [] ∧
      (remediate_jp2 isValid1 meth2Rule1 []).1.isEmpty = true ∧
      (remediate_jp2 isValid1 meth2Rule1 []).2 = [] := by
  intro isValid1 isValid2 meth2Rule1 meth2Rule2
  exact ⟨rfl, rfl, rfl⟩

/-- C4: a colr box at position P whose meth byte at P + 4 reads 1 yields
header_offset_position P + 11, with a diagnostic naming the computed
value. -/
theorem colr_meth_one_offset (meth2Rule : Nat → Option Nat)
    (buf : List Nat) (p : Nat) (hm : buf[p + 4]? = some 1) :
    (process_colr_box meth2Rule buf (some p)).1 = some (p + 11) ∧
      methOneMsg (p + 11) ∈ (process_colr_box meth2Rule buf (some p)).2 := by
  have e : p + 4 + 7 = p + 11 := by omega
  unfold process_colr_box
  dsimp only
  rw [hm]
  simp only [if_pos rfl, e]
  exact ⟨rfl, List.mem_cons_self _ _⟩

/-- C4 witness: a concrete buffer with the meth byte 1 at position 4 gives
offset 11 with its diagnostic. -/
theorem colr_meth_one_offset_witness :
    (process_colr_box (fun _ => none) [0, 0, 0, 0, 1] (some 0)).1 =
        some 11 ∧
      methOneMsg 11 ∈
        (process_colr_box (fun _ => none) [0, 0, 0, 0, 1] (some 0)).2 :=
  colr_meth_one_offset (fun _ => none) [0, 0, 0, 0, 1] 0 rfl

/-- C5: the whole remediation pass never mutates the source bytes the
reader was constructed with: the file_contents field of the object state
after the pass is the same as before; all edits land in the returned
working buffer. -/
theorem input_buffer_preserved :
    ∀ (isValid : List Nat → Bool) (meth2Rule : Nat → Option Nat)
      (r : ReaderState),
    ((remediate_jp2_obj isValid meth2Rule r).2).file_contents =
      r.file_contents := by
  intro isValid meth2Rule r
  unfold remediate_jp2_obj
  by_cases he : r.file_contents = []
  · rw [if_pos he]
  · rw [if_neg he]

/-- C6: with an undefined header_offset_position, process_trc_tag returns
its input buffer unchanged whatever the tag content after the found
signature is, and records the diagnostic about the unresolvable curve
position (when the signature itself is absent the pass is likewise a
no-op, but diagnosed as not found instead, per the spec step order). -/
theorem undefined_hop_noop (sig : List Nat) (name : String)
    (buf : List Nat) (st : Option Nat) (p : Nat)
    (hfind : find_box_position sig buf = some p) :
    (process_trc_tag sig name buf none st).buf = buf ∧
      noHopMsg name ∈ (process_trc_tag sig name buf none st).diags := by
  unfold process_trc_tag
  rw [hfind]
  exact ⟨rfl, List.mem_cons_self _ _⟩

/-- C6 witness: a buffer that is exactly the rTRC signature is returned
unchanged with the diagnostic when the header offset is undefined. -/
theorem undefined_hop_noop_witness :
    (process_trc_tag rTRCSig "rTRC" rTRCSig none none).buf = rTRCSig ∧
      noHopMsg "rTRC" ∈
        (process_trc_tag rTRCSig "rTRC" rTRCSig none none).diags :=
  undefined_hop_noop rTRCSig "rTRC" rTRCSig none 0 (by decide)

/-- C7: a TRC signature found with fewer than 12 bytes to the end of the
buffer leaves the buffer unchanged and records the diagnostic naming the
channel whose full 12-byte tag entry could not be extracted. -/
theorem truncated_entry_noop (sig : List Nat) (name : String)
    (buf : List Nat) (st : Option Nat) (h p : Nat)
    (hfind : find_box_position sig buf = some p)
    (hshort : buf.length < p + 12) :
    (process_trc_tag sig name buf (some h) st).buf = buf ∧
      truncMsg name ∈ (process_trc_tag sig name buf (some h) st).diags := by
  rw [process_trc_tag_found sig name buf h st p hfind]
  unfold trcCore
  rw [if_pos hshort]
  exact ⟨rfl, List.mem_cons_self _ _⟩

/-- C7 witness: the rTRC signature followed by only 3 bytes is returned
unchanged with the truncation diagnostic. -/
theorem truncated_entry_noop_witness :
    (process_trc_tag rTRCSig "rTRC" wbufTrunc (some 50) none).buf =
        wbufTrunc ∧
      truncMsg "rTRC" ∈
        (process_trc_tag rTRCSig "rTRC" wbufTrunc (some 50) none).diags :=
  truncated_entry_noop rTRCSig "rTRC" wbufTrunc none 50 0 (by decide)
    (by decide)

/-- C8: process_colr_box yields an undefined header offset both for the
not-found sentinel, with the colr-not-found diagnostic, and for a meth
byte that is neither 1 nor 2, with a diagnostic naming the literal
unrecognized value. -/
theorem colr_undefined_cases (meth2Rule : Nat → Option Nat)
    (buf : List Nat) (p m : Nat) (hm : buf[p + 4]? = some m)
    (h1 : m ≠ 1) (h2 : m ≠ 2) :
    ((process_colr_box meth2Rule buf none).1 = none ∧
      colrNotFoundMsg ∈ (process_colr_box meth2Rule buf none).2) ∧
      ((process_colr_box meth2Rule buf (some p)).1 = none ∧
        methBadMsg m ∈ (process_colr_box meth2Rule buf (some p)).2) := by
  refine ⟨⟨rfl, List.mem_cons_self _ _⟩, ?_⟩
  unfold process_colr_box
  dsimp only
  rw [hm]
  dsimp only
  rw [if_neg h1, if_neg h2]
  exact ⟨rfl, List.mem_cons_self _ _⟩

/-- C8 witness: the sentinel and a concrete meth byte 3 both yield an
undefined offset with their diagnostics. -/
theorem colr_undefined_cases_witness :
    (((process_colr_box (fun _ => none) [0, 0, 0, 0, 3] none).1 = none ∧
      colrNotFoundMsg ∈
        (process_colr_box (fun _ => none) [0, 0, 0, 0, 3] none).2) ∧
      ((process_colr_box (fun _ => none) [0, 0, 0, 0, 3] (some 0)).1 = none
        ∧ methBadMsg 3 ∈
          (process_colr_box (fun _ => none) [0, 0, 0, 0, 3] (some 0)).2)) :=
  colr_undefined_cases (fun _ => none) [0, 0, 0, 0, 3] 0 3 rfl
    (by decide) (by decide)

/-- C9: a TRC tag entry whose declared size already equals
gamma_n * 2 + 12 is left byte-identical by process_trc_tag. -/
theorem matching_size_identity (sig : List Nat) (name : String)
    (buf : List Nat) (st : Option Nat) (h p : Nat)
    (hfind : find_box_position sig buf = some p)
    (hlen : p + 12 ≤ buf.length)
    (hsize : tagSizeAt buf p = gammaAt buf p h * 2 + 12) :
    (process_trc_tag sig name buf (some h) st).buf = buf := by
  rw [process_trc_tag_found sig name buf h st p hfind]
  unfold trcCore
  rw [if_neg (not_lt.mpr hlen)]
  by_cases hg : gammaAt buf p h ≠ 1
  · rw [if_pos hg]
  · rw [if_neg hg, if_neg (not_not_intro hsize)]

/-- C9 witness: the already-correct concrete buffer is returned
byte-identical. -/
theorem matching_size_identity_witness :
    (process_trc_tag rTRCSig "rTRC" wbufOk (some 0) none).buf = wbufOk :=
  matching_size_identity rTRCSig "rTRC" wbufOk none 0 0 (by decide)
    (by decide) (by decide)

/-- C1: if any one of the three TRC channels, at its turn in the pass
(running on the working buffer the earlier channels produced), reaches
the curve read and sees a gamma_n differing from 1, the final result of
remediate_jp2 has skip_remediation true — whichever channel it is and
whatever the channels after it see: the flag is sticky and never cleared
within the pass. -/
theorem sticky_skip_any_channel (isValid : List Nat → Bool)
    (meth2Rule : Nat → Option Nat) (buf : List Nat)
    (pre post : List (List Nat × String)) (sig : List Nat) (name : String)
    (g : Nat) (hne : ¬ buf = [])
    (hchan : trcChannels = pre ++ (sig, name) :: post)
    (hseen : trcGammaSeen sig
      (runTrcChannels pre ((check_boxes meth2Rule buf).1) buf none).1
      ((check_boxes meth2Rule buf).1) = some g)
    (hg : g ≠ 1) :
    (remediate_jp2 isValid meth2Rule buf).1.skipRemediation = true := by
  rw [remediate_skip_flag isValid meth2Rule buf hne]
  unfold process_all_trc_tags
  rw [hchan, runTrcChannels_append]
  cases ho : (check_boxes meth2Rule buf).1 with
  | none =>
    rw [ho] at hseen
    unfold trcGammaSeen at hseen
    cases hf : find_box_position sig
        (runTrcChannels pre none buf none).1 with
    | none => rw [hf] at hseen; cases hseen
    | some p => rw [hf] at hseen; cases hseen
  | some h =>
    rw [ho] at hseen
    unfold trcGammaSeen at hseen
    cases hf : find_box_position sig
        (runTrcChannels pre (some h) buf none).1 with
    | none => rw [hf] at hseen; cases hseen
    | some p =>
      rw [hf] at hseen
      dsimp only at hseen
      by_cases hl :
          (runTrcChannels pre (some h) buf none).1.length < p + 12
      · rw [if_pos hl] at hseen; cases hseen
      · rw [if_neg hl] at hseen
        have hgam := Option.some.inj hseen
        have hset : (process_trc_tag sig name
            (runTrcChannels pre (some h) buf none).1 (some h)
            (runTrcChannels pre (some h) buf none).2).gammaState = some g :=
          trc_state_sets sig name _ p h _ g hf hl hgam hg
        show skipOfGamma (runTrcChannels ((sig, name) :: post) (some h)
          (runTrcChannels pre (some h) buf none).1
          (runTrcChannels pre (some h) buf none).2).2 = true
        unfold runTrcChannels
        exact runTrcChannels_mono post (some h) _ _
          (by rw [hset]; exact decide_eq_true hg)

/-- C1 witness: a concrete buffer whose rTRC channel sees gamma_n 2 makes
the whole remediation pass report skip_remediation. -/
theorem sticky_skip_any_channel_witness :
    Jp2Result.skipRemediation
      (remediate_jp2 (fun _ => true) (fun _ => none) wbufSkip).1 = true :=
  sticky_skip_any_channel (fun _ => true) (fun _ => none) wbufSkip []
    [(gTRCSig, "gTRC"), (bTRCSig, "bTRC")] rTRCSig "rTRC" 2
    (by decide) rfl (by decide) (by decide)

/-- C10: when the reader produced for the downloaded file carries a true
skip_remediation attribute, process_s3_file performs no upload and no
delete of the modified file: it logs the skip message and returns; its
whole effect trace is the download, the read, and the two log lines. -/
theorem s3_skip_no_upload (skipAttr : Option Bool)
    (modExists removeOk : Bool)
    (timestamp inputBucket inputKey outputBucket outputKey : String)
    (hskip : skipAttr = some true) :
    (process_s3_file skipAttr modExists removeOk timestamp inputBucket
        inputKey outputBucket outputKey).all
        (fun e => !touchesModified e) = true ∧
      S3Event.info (skipLogMsg ("/tmp/" ++ basename inputKey)) ∈
        process_s3_file skipAttr modExists removeOk timestamp inputBucket
          inputKey outputBucket outputKey ∧
      process_s3_file skipAttr modExists removeOk timestamp inputBucket
          inputKey outputBucket outputKey =
        [S3Event.info ("Downloading file: " ++ inputKey ++
            " from bucket: " ++ inputBucket),
          S3Event.download inputBucket inputKey
            ("/tmp/" ++ basename inputKey),
          S3Event.readJp2 ("/tmp/" ++ basename inputKey),
          S3Event.info (skipLogMsg ("/tmp/" ++ basename inputKey))] := by
  subst hskip
  refine ⟨rfl, ?_, rfl⟩
  unfold process_s3_file
  dsimp only
  exact List.mem_cons_of_mem _ (List.mem_cons_of_mem _
    (List.mem_cons_of_mem _ (List.mem_cons_self _ _)))

/-- C10 witness: at concrete inputs with the skip attribute set, the trace
touches no modified file and ends with the skip log. -/
theorem s3_skip_no_upload_witness :
    (process_s3_file (some true) true true "20260101" "in-bucket"
        "folder/file.jp2" "out-bucket" "out/file.jp2").all
        (fun e => !touchesModified e) = true ∧
      S3Event.info (skipLogMsg ("/tmp/" ++ basename "folder/file.jp2")) ∈
        process_s3_file (some true) true true "20260101" "in-bucket"
          "folder/file.jp2" "out-bucket" "out/file.jp2" ∧
      process_s3_file (some true) true true "20260101" "in-bucket"
          "folder/file.jp2" "out-bucket" "out/file.jp2" =
        [S3Event.info ("Downloading file: " ++ "folder/file.jp2" ++
            " from bucket: " ++ "in-bucket"),
          S3Event.download "in-bucket" "folder/file.jp2"
            ("/tmp/" ++ basename "folder/file.jp2"),
          S3Event.readJp2 ("/tmp/" ++ basename "folder/file.jp2"),
          S3Event.info (skipLogMsg ("/tmp/" ++ basename "folder/file.jp2"))]
    :=
  s3_skip_no_upload (some true) true true "20260101" "in-bucket"
    "folder/file.jp2" "out-bucket" "out/file.jp2" rfl

end Jp2
